import Mathlib

/-!
Verification of the startup-time schema and data bootstrap of the CribbRoommate
backend (`src/config/config.go`).  The module is embedded shallowly: a document
store state is a map from collection names to collections (documents plus
declared indexes), and each store operation used by the bootstrap is a pure
function on that state.  Fallible store calls are driven by an explicit fault
model, so that the fatal/advisory error policy of the bootstrap can be stated
and proved.
-/

namespace Cribb

/-- A BSON document, restricted to the string-valued fields this module reads
and writes (`group_code`, `type`, `name`, `group_id`, ...).  Field presence is
membership of the key. -/
abbrev Doc := List (String × String)

/-- Whether a field is present on a document. -/
def Doc.hasField (d : Doc) (k : String) : Bool :=
  d.any (fun p => p.1 == k)

/-- Read a field of a document (first occurrence). -/
def Doc.getField (d : Doc) (k : String) : Option String :=
  (d.find? (fun p => p.1 == k)).map (fun p => p.2)

/-- The effect, on one document, of an update `$set`-ting a field under a
filter matching only documents where the field is absent: documents already
carrying the field are untouched. -/
def Doc.setMissing (d : Doc) (k v : String) : Doc :=
  if d.hasField k then d else d ++ [(k, v)]

/-- A declared index: keys with directions, the unique option, and the
partial-filter option restricted to the one shape the module uses
(`$exists: true` on a single field, recorded as `filterExists`). -/
structure IndexModel where
  keys : List (String × Int)
  unique : Bool
  filterExists : Option String
deriving DecidableEq

/-- A collection: its documents and its current index set. -/
structure Collection where
  docs : List Doc
  indexes : List IndexModel
deriving DecidableEq

def emptyCollection : Collection := ⟨[], []⟩

/-- The document store: a map from collection names to collections.
`none` means the collection does not exist. -/
structure DBState where
  colls : String → Option Collection

def DBState.getColl (st : DBState) (n : String) : Option Collection :=
  st.colls n

def DBState.getCollD (st : DBState) (n : String) : Collection :=
  (st.colls n).getD emptyCollection

def DBState.setColl (st : DBState) (n : String) (c : Collection) : DBState :=
  ⟨fun m => if m = n then some c else st.colls m⟩

/-- The empty store (fresh deployment). -/
def emptyDB : DBState := ⟨fun _ => none⟩

/-- Whether an index with the given key pattern is already declared. -/
def keysIn (l : List IndexModel) (i : IndexModel) : Bool :=
  l.any (fun j => j.keys == i.keys)

/-- Mongo `CreateMany` index semantics as relied on by the module: each
declared index whose key pattern is already present is a no-op, the others are
appended. -/
def addIdx (cur : List IndexModel) (new : List IndexModel) : List IndexModel :=
  new.foldl (fun acc i => if keysIn acc i then acc else acc ++ [i]) cur

/-- `Indexes().CreateMany`: creates the collection when absent. -/
def createIndexes (n : String) (idxs : List IndexModel) (st : DBState) : DBState :=
  let c := st.getCollD n
  st.setColl n ⟨c.docs, addIdx c.indexes idxs⟩

/-- `Indexes().DropAll`: drops every index; no-op on an absent collection. -/
def dropAllIndexes (n : String) (st : DBState) : DBState :=
  match st.getColl n with
  | none => st
  | some c => st.setColl n ⟨c.docs, []⟩

/-- `UpdateMany` with filter `{k: {$exists: false}}` and update `{$set: {k: v}}`:
backfills the field on every document missing it; no-op on an absent
collection. -/
def setMissingField (n k v : String) (st : DBState) : DBState :=
  match st.getColl n with
  | none => st
  | some c => st.setColl n ⟨c.docs.map (fun d => d.setMissing k v), c.indexes⟩

/-- `InsertMany`: appends the documents, creating the collection when absent. -/
def insertMany (n : String) (ds : List Doc) (st : DBState) : DBState :=
  let c := st.getCollD n
  st.setColl n ⟨c.docs ++ ds, c.indexes⟩

/-- Which store calls fail during a run. -/
structure Faults where
  migrateGroupsFails : Bool := false
  listCollectionsFails : Bool := false
  dropGroupIndexesFails : Bool := false
  updateGroupCodeFails : Bool := false
  createIndexFails : String → Bool := fun _ => false
  countPredefFails : Bool := false
  insertPredefFails : Bool := false

def noFaults : Faults := {}

/-- `collectionExists` (config.go:87-90): lists catalog names filtered by the
collection name and returns `err == nil && len(collections) > 0`; an error from
the catalog query therefore yields `false`. -/
def collectionExists (f : Faults) (st : DBState) (n : String) : Bool :=
  !f.listCollectionsFails && (st.getColl n).isSome

/-- Modelled from the spec: `models.MigrateExistingGroups` belongs to the
models package, which is not under src/.  Spec §4.3 (Legacy Field Migrator):
idempotently ensure every Group record has a `group_code`; records missing it
are set to the fixed sentinel string "LEGACY" in a single bulk update matching
`group_code` absent. -/
def MigrateExistingGroups (st : DBState) : DBState :=
  setMissingField "groups" "group_code" "LEGACY" st

/-- Modelled from the spec: `models.CreatePredefinedCategory` belongs to the
models package, which is not under src/.  Spec (§3, glossary): a predefined
category is a seeded, ungrouped reference record carrying the given name,
distinguished from user-created categories by the type tag "predefined", with
no `group_id`. -/
def CreatePredefinedCategory (name : String) : Doc :=
  [("name", name), ("type", "predefined")]

/-- The declared index set for `users` (config.go:110-125). -/
def usersIndexes : List IndexModel :=
  [⟨[("username", 1)], true, none⟩,
   ⟨[("phone_number", 1)], true, none⟩,
   ⟨[("score", -1)], false, none⟩,
   ⟨[("room_number", 1)], false, none⟩]

/-- The declared index set for `groups` (config.go:153-162). -/
def groupsIndexes : List IndexModel :=
  [⟨[("name", 1)], true, none⟩,
   ⟨[("group_code", 1)], true, none⟩]

/-- The declared index set for `chores` (config.go:170-186). -/
def choresIndexes : List IndexModel :=
  [⟨[("group_id", 1)], false, none⟩,
   ⟨[("assigned_to", 1)], false, none⟩,
   ⟨[("status", 1)], false, none⟩,
   ⟨[("due_date", 1)], false, none⟩,
   ⟨[("recurring_id", 1)], false, none⟩]

/-- The declared index set for `recurring_chores` (config.go:194-204). -/
def recurringChoresIndexes : List IndexModel :=
  [⟨[("group_id", 1)], false, none⟩,
   ⟨[("is_active", 1)], false, none⟩,
   ⟨[("next_assignment", 1)], false, none⟩]

/-- The declared index set for `chore_completions` (config.go:212-222). -/
def completionsIndexes : List IndexModel :=
  [⟨[("chore_id", 1)], false, none⟩,
   ⟨[("user_id", 1)], false, none⟩,
   ⟨[("completed_at", -1)], false, none⟩]

/-- The declared index set for `shopping_cart` (config.go:229-247). -/
def shoppingCartIndexes : List IndexModel :=
  [⟨[("group_id", 1)], false, none⟩,
   ⟨[("user_id", 1)], false, none⟩,
   ⟨[("item_name", 1)], false, none⟩,
   ⟨[("user_id", 1), ("group_id", 1), ("item_name", 1)], true, none⟩]

/-- The declared index set for `pantry_categories` (config.go:255-271): the
(`name`,`group_id`) index is unique with partial filter `group_id $exists`. -/
def categoriesIndexes : List IndexModel :=
  [⟨[("name", 1), ("group_id", 1)], true, some "group_id"⟩,
   ⟨[("type", 1)], false, none⟩,
   ⟨[("group_id", 1)], false, none⟩,
   ⟨[("is_active", 1)], false, none⟩]

/-- The fixed 20-name predefined category catalog (config.go:312-333). -/
def predefinedCategories : List String :=
  ["Dairy", "Fruits", "Vegetables", "Grains & Cereals", "Meat & Poultry",
   "Seafood", "Beverages", "Snacks", "Condiments & Sauces",
   "Spices & Seasonings", "Baking Supplies", "Frozen Foods", "Canned Goods",
   "Oils & Vinegars", "Nuts & Seeds", "Bread & Bakery", "Pasta & Rice",
   "Cleaning Supplies", "Personal Care", "Other"]

/-- Whether a document carries the predefined type tag, as filtered by the
seeder's `CountDocuments` call (config.go:297-300). -/
def isPredefined (d : Doc) : Bool :=
  d.getField "type" == some "predefined"

/-- The seeder's guard count: documents with `type = "predefined"` in
`pantry_categories` (zero when the collection is absent). -/
def countPredefined (st : DBState) : Nat :=
  (st.getCollD "pantry_categories").docs.countP isPredefined

/-- `seedPredefinedCategories` (config.go:288-350): count the predefined tag;
a positive count skips seeding (success); a zero count builds the 20 catalog
records and inserts them in one batch; count and insert errors are returned. -/
def seedPredefinedCategories (f : Faults) (st : DBState) :
    Except String Unit × DBState × List String :=
  if f.countPredefFails then
    (Except.error "failed to check existing predefined categories", st, [])
  else if countPredefined st > 0 then
    (Except.ok (), st, ["Predefined categories already exist, skipping seeding"])
  else if f.insertPredefFails then
    (Except.error "failed to insert predefined categories", st, [])
  else
    (Except.ok (), insertMany "pantry_categories" (predefinedCategories.map CreatePredefinedCategory) st,
      ["Successfully seeded predefined categories"])

/-- `initializeDatabase` (config.go:92-285): migrate groups (advisory), create
the seven collections' indexes in order (each failure fatal), with the
destructive rebuild on `groups` when it already exists (drop all indexes —
failure fatal — then backfill `group_code`, failure advisory), and finally
seed the predefined categories (failure advisory).  Returns the result, the
store state, and the warning log. -/
def initializeDatabase (f : Faults) (st0 : DBState) :
    Except String Unit × DBState × List String :=
  let mg :=
    if f.migrateGroupsFails then (st0, ["Warning: Could not migrate existing groups"])
    else (MigrateExistingGroups st0, ([] : List String))
  let st1 := mg.1
  let lg1 := mg.2
  if f.createIndexFails "users" then (Except.error "failed to create user indexes", st1, lg1) else
  let st2 := createIndexes "users" usersIndexes st1
  let gex := collectionExists f st2 "groups"
  if gex && f.dropGroupIndexesFails then (Except.error "failed to drop group indexes", st2, lg1) else
  let gr :=
    if gex then
      let st3 := dropAllIndexes "groups" st2
      if f.updateGroupCodeFails then
        (st3, lg1 ++ ["Warning: Unable to set default group_code on existing documents"])
      else
        (setMissingField "groups" "group_code" "LEGACY" st3, lg1)
    else (st2, lg1)
  let st4 := gr.1
  let lg2 := gr.2
  if f.createIndexFails "groups" then (Except.error "failed to create group indexes", st4, lg2) else
  let st5 := createIndexes "groups" groupsIndexes st4
  if f.createIndexFails "chores" then (Except.error "failed to create chore indexes", st5, lg2) else
  let st6 := createIndexes "chores" choresIndexes st5
  if f.createIndexFails "recurring_chores" then
    (Except.error "failed to create recurring chore indexes", st6, lg2) else
  let st7 := createIndexes "recurring_chores" recurringChoresIndexes st6
  if f.createIndexFails "chore_completions" then
    (Except.error "failed to create chore completion indexes", st7, lg2) else
  let st8 := createIndexes "chore_completions" completionsIndexes st7
  if f.createIndexFails "shopping_cart" then
    (Except.error "failed to create shopping cart indexes", st8, lg2) else
  let st9 := createIndexes "shopping_cart" shoppingCartIndexes st8
  if f.createIndexFails "pantry_categories" then
    (Except.error "failed to create pantry categories indexes", st9, lg2) else
  let st10 := createIndexes "pantry_categories" categoriesIndexes st9
  let sr := seedPredefinedCategories f st10
  (Except.ok (), sr.2.1,
    match sr.1 with
    | Except.error e => lg2 ++ sr.2.2 ++ ["Warning: Could not seed predefined categories: " ++ e]
    | Except.ok _ => lg2 ++ sr.2.2)

/-- `strings.TrimSpace`: the string with whitespace removed from both ends. -/
def trimSpace (s : String) : String :=
  ⟨((s.data.dropWhile Char.isWhitespace).reverse.dropWhile Char.isWhitespace).reverse⟩

/-- The environment-supplied configuration read by `ConnectDB`. -/
structure Env where
  mongoURI : String
  dbName : String
  jwtSecret : String

/-- Which connection-phase calls fail. -/
structure ConnFaults where
  connectFails : Bool := false
  pingFails : Bool := false

def noConnFaults : ConnFaults := {}

/-- Outcome of the orchestrated startup: `fatal msg` models `log.Fatal`
(process terminates), `ok` models a completed bootstrap. -/
inductive Outcome where
  | fatal (msg : String)
  | ok
deriving DecidableEq

/-- The Connector's validation and connection sequence (config.go:39-74): trim
the three variables, abort with the identifying message on the first empty
one, then abort on a connect or ping failure; `none` means the connector
proceeds. -/
def connectorCheck (env : Env) (cf : ConnFaults) : Option String :=
  if trimSpace env.mongoURI = "" then some "MONGODB_URI is required in .env file"
  else if trimSpace env.dbName = "" then some "DB_NAME is required in .env file"
  else if trimSpace env.jwtSecret = "" then some "JWT_SECRET is required in .env file"
  else if cf.connectFails then some "Failed to connect to MongoDB"
  else if cf.pingFails then some "Failed to ping MongoDB"
  else none

/-- `ConnectDB` (config.go:30-84): run the connector; on success run
`initializeDatabase` and turn its error into a fatal outcome (config.go:79-81). -/
def ConnectDB (env : Env) (cf : ConnFaults) (f : Faults) (st : DBState) :
    Outcome × DBState :=
  match connectorCheck env cf with
  | some m => (Outcome.fatal m, st)
  | none =>
      match initializeDatabase f st with
      | (Except.error e, st', _) => (Outcome.fatal ("Failed to initialize database: " ++ e), st')
      | (Except.ok _, st', _) => (Outcome.ok, st')

/-- The destructive-rebuild stage for `groups` under no faults
(config.go:134-151): when the collection exists, drop all its indexes and
backfill `group_code` with the sentinel; otherwise do nothing. -/
def groupsStage (st : DBState) : DBState :=
  if (st.getColl "groups").isSome then
    setMissingField "groups" "group_code" "LEGACY" (dropAllIndexes "groups" st)
  else st

/-- The seeding stage under no faults: skip when any predefined category is
counted, otherwise batch-insert the catalog. -/
def seedStage (st : DBState) : DBState :=
  if countPredefined st > 0 then st
  else insertMany "pantry_categories" (predefinedCategories.map CreatePredefinedCategory) st

/-- The pipeline up to and including the users index creation. -/
def stageUsers (st : DBState) : DBState :=
  createIndexes "users" usersIndexes (MigrateExistingGroups st)

/-- The pipeline up to and including the groups rebuild and index creation. -/
def stageGroups (st : DBState) : DBState :=
  createIndexes "groups" groupsIndexes (groupsStage (stageUsers st))

/-- The pipeline up to and including the chores index creation. -/
def stageChores (st : DBState) : DBState :=
  createIndexes "chores" choresIndexes (stageGroups st)

/-- The pipeline up to and including the recurring-chores index creation. -/
def stageRecurring (st : DBState) : DBState :=
  createIndexes "recurring_chores" recurringChoresIndexes (stageChores st)

/-- The pipeline up to and including the chore-completions index creation. -/
def stageCompletions (st : DBState) : DBState :=
  createIndexes "chore_completions" completionsIndexes (stageRecurring st)

/-- The pipeline up to and including the shopping-cart index creation. -/
def stageShopping (st : DBState) : DBState :=
  createIndexes "shopping_cart" shoppingCartIndexes (stageCompletions st)

/-- The pipeline up to and including the pantry-categories index creation. -/
def stagePantry (st : DBState) : DBState :=
  createIndexes "pantry_categories" categoriesIndexes (stageShopping st)

/-- The store state produced by a fault-free `initializeDatabase` run: migrate
groups, create the users indexes, destructively rebuild groups, create the
remaining declared index sets in order, then seed. -/
def bootState (st : DBState) : DBState :=
  seedStage (stagePantry st)

/-- A run in which only the catalog drop of the groups indexes fails. -/
def dropFaults : Faults := { dropGroupIndexesFails := true }

/-- A run in which both group-migration calls fail. -/
def migrationFaults : Faults := { migrateGroupsFails := true, updateGroupCodeFails := true }

/-- A run in which the collection catalog query fails. -/
def probeFaults : Faults := { listCollectionsFails := true }

/-- A run in which index creation fails exactly on the named collection. -/
def onlyCreateFail (c : String) : Faults := { createIndexFails := fun n => n == c }

/-- An environment that passes the connector's validation. -/
def okEnv : Env := ⟨"mongodb://host", "cribb", "secret"⟩

/-- The collection/error-message table of the seven index-creation steps
(config.go:126-275). -/
def indexErrorTable : List (String × String) :=
  [("users", "failed to create user indexes"),
   ("groups", "failed to create group indexes"),
   ("chores", "failed to create chore indexes"),
   ("recurring_chores", "failed to create recurring chore indexes"),
   ("chore_completions", "failed to create chore completion indexes"),
   ("shopping_cart", "failed to create shopping cart indexes"),
   ("pantry_categories", "failed to create pantry categories indexes")]

/-- Whether a document falls under an index's partial filter (the module only
declares the single-field `$exists: true` shape). -/
def matchesFilter (d : Doc) (i : IndexModel) : Bool :=
  match i.filterExists with
  | none => true
  | some k => d.hasField k

/-- The key tuple an index extracts from a document. -/
def keyProj (i : IndexModel) (d : Doc) : List (Option String) :=
  i.keys.map (fun k => d.getField k.1)

/-- A unique index is violated by a document list when two distinct positions
hold documents that both fall under the partial filter and share the key
tuple. -/
def violatesUnique (i : IndexModel) (ds : List Doc) : Prop :=
  i.unique = true ∧ ∃ (a b : Fin ds.length), a.1 ≠ b.1 ∧
    matchesFilter (ds.get a) i = true ∧ matchesFilter (ds.get b) i = true ∧
    keyProj i (ds.get a) = keyProj i (ds.get b)

/-! ## Basic state lemmas -/

theorem getCollD_eq (st : DBState) (n : String) :
    st.getCollD n = (st.getColl n).getD emptyCollection := rfl

theorem getColl_setColl_same (st : DBState) (n : String) (c : Collection) :
    (st.setColl n c).getColl n = some c := by
  simp [DBState.setColl, DBState.getColl]

theorem getColl_setColl_ne (st : DBState) (n m : String) (c : Collection) (h : m ≠ n) :
    (st.setColl n c).getColl m = st.getColl m := by
  simp [DBState.setColl, DBState.getColl, h]

theorem setColl_setColl_same (st : DBState) (n : String) (c c' : Collection) :
    (st.setColl n c).setColl n c' = st.setColl n c' := by
  unfold DBState.setColl
  congr 1
  funext m
  by_cases h : m = n <;> simp [h]

theorem setColl_getColl_self (st : DBState) (n : String) (c : Collection)
    (h : st.getColl n = some c) : st.setColl n c = st := by
  unfold DBState.setColl
  cases st with
  | mk colls =>
      congr 1
      funext m
      by_cases hm : m = n
      · subst hm; simpa [DBState.getColl] using h.symm
      · simp [hm]

/-! ## Index-merge lemmas -/

theorem addIdx_nil (cur : List IndexModel) : addIdx cur [] = cur := rfl

theorem addIdx_cons (cur : List IndexModel) (a : IndexModel) (t : List IndexModel) :
    addIdx cur (a :: t) = addIdx (if keysIn cur a then cur else cur ++ [a]) t := rfl

theorem keysIn_append_single (l : List IndexModel) (j i : IndexModel) :
    keysIn (l ++ [j]) i = (keysIn l i || (j.keys == i.keys)) := by
  simp [keysIn]

theorem keysIn_addIdx_mono (new : List IndexModel) (cur : List IndexModel) (i : IndexModel)
    (h : keysIn cur i = true) : keysIn (addIdx cur new) i = true := by
  induction new generalizing cur with
  | nil => simpa [addIdx_nil] using h
  | cons a t ih =>
      rw [addIdx_cons]
      apply ih
      by_cases hk : keysIn cur a
      · simpa [hk] using h
      · simp [hk, keysIn_append_single, h]

theorem keysIn_addIdx_covers (new : List IndexModel) (cur : List IndexModel) (i : IndexModel)
    (h : i ∈ new) : keysIn (addIdx cur new) i = true := by
  induction new generalizing cur with
  | nil => cases h
  | cons a t ih =>
      rw [addIdx_cons]
      rcases List.mem_cons.mp h with rfl | ht
      · by_cases hk : keysIn cur i
        · rw [if_pos hk]
          exact keysIn_addIdx_mono t cur i hk
        · rw [if_neg hk]
          apply keysIn_addIdx_mono
          simp [keysIn_append_single]
      · exact ih _ ht

theorem addIdx_noop (new : List IndexModel) (cur : List IndexModel)
    (h : ∀ i ∈ new, keysIn cur i = true) : addIdx cur new = cur := by
  induction new with
  | nil => rfl
  | cons a t ih =>
      rw [addIdx_cons, if_pos (h a (List.mem_cons_self a t))]
      exact ih (fun i hi => h i (List.mem_cons_of_mem a hi))

theorem addIdx_idem (cur new : List IndexModel) : addIdx (addIdx cur new) new = addIdx cur new :=
  addIdx_noop new _ (fun i hi => keysIn_addIdx_covers new cur i hi)

/-! ## Document lemmas -/

theorem hasField_setMissing (d : Doc) (k v : String) : (d.setMissing k v).hasField k = true := by
  unfold Doc.setMissing
  by_cases h : d.hasField k
  · simpa [h] using h
  · simp only [h, if_false, Bool.false_eq_true]
    simp [Doc.hasField, List.any_append]

theorem setMissing_of_hasField (d : Doc) (k v : String) (h : d.hasField k = true) :
    d.setMissing k v = d := by
  simp [Doc.setMissing, h]

theorem setMissing_setMissing (d : Doc) (k v : String) :
    (d.setMissing k v).setMissing k v = d.setMissing k v :=
  setMissing_of_hasField _ _ _ (hasField_setMissing d k v)

theorem map_setMissing_idem (l : List Doc) (k v : String) :
    (l.map (fun d => d.setMissing k v)).map (fun d => d.setMissing k v) =
      l.map (fun d => d.setMissing k v) := by
  rw [List.map_map]
  exact List.map_congr_left (fun d _ => setMissing_setMissing d k v)

/-! ## Operation lemmas -/

theorem getColl_createIndexes_same (n : String) (I : List IndexModel) (st : DBState) :
    (createIndexes n I st).getColl n =
      some ⟨(st.getCollD n).docs, addIdx (st.getCollD n).indexes I⟩ := by
  simp [createIndexes, getColl_setColl_same]

theorem getColl_createIndexes_ne (n : String) (I : List IndexModel) (st : DBState)
    (m : String) (h : m ≠ n) : (createIndexes n I st).getColl m = st.getColl m := by
  simp [createIndexes, getColl_setColl_ne _ _ _ _ h]

theorem getColl_insertMany_same (n : String) (ds : List Doc) (st : DBState) :
    (insertMany n ds st).getColl n =
      some ⟨(st.getCollD n).docs ++ ds, (st.getCollD n).indexes⟩ := by
  simp [insertMany, getColl_setColl_same]

theorem getColl_insertMany_ne (n : String) (ds : List Doc) (st : DBState)
    (m : String) (h : m ≠ n) : (insertMany n ds st).getColl m = st.getColl m := by
  simp [insertMany, getColl_setColl_ne _ _ _ _ h]

theorem getColl_setMissingField_same (n k v : String) (st : DBState) :
    (setMissingField n k v st).getColl n =
      (st.getColl n).map (fun c => ⟨c.docs.map (fun d => d.setMissing k v), c.indexes⟩) := by
  unfold setMissingField
  cases hc : st.getColl n with
  | none => rw [hc]; rfl
  | some c => simp [getColl_setColl_same]

theorem getColl_setMissingField_ne (n k v : String) (st : DBState)
    (m : String) (h : m ≠ n) : (setMissingField n k v st).getColl m = st.getColl m := by
  unfold setMissingField
  cases hc : st.getColl n with
  | none => rfl
  | some c => simp [getColl_setColl_ne _ _ _ _ h]

theorem getColl_dropAllIndexes_same (n : String) (st : DBState) :
    (dropAllIndexes n st).getColl n = (st.getColl n).map (fun c => ⟨c.docs, []⟩) := by
  unfold dropAllIndexes
  cases hc : st.getColl n with
  | none => rw [hc]; rfl
  | some c => simp [getColl_setColl_same]

theorem getColl_dropAllIndexes_ne (n : String) (st : DBState)
    (m : String) (h : m ≠ n) : (dropAllIndexes n st).getColl m = st.getColl m := by
  unfold dropAllIndexes
  cases hc : st.getColl n with
  | none => rfl
  | some c => simp [getColl_setColl_ne _ _ _ _ h]

theorem getColl_groupsStage_ne (st : DBState) (m : String) (h : m ≠ "groups") :
    (groupsStage st).getColl m = st.getColl m := by
  unfold groupsStage
  split_ifs with hex
  · rw [getColl_setMissingField_ne _ _ _ _ _ h, getColl_dropAllIndexes_ne _ _ _ h]
  · rfl

theorem getColl_seedStage_ne (st : DBState) (m : String) (h : m ≠ "pantry_categories") :
    (seedStage st).getColl m = st.getColl m := by
  unfold seedStage
  split_ifs with hc
  · rfl
  · rw [getColl_insertMany_ne _ _ _ _ h]

/-! ## Count lemmas -/

theorem countPredefined_eq (st : DBState) :
    countPredefined st = ((st.getColl "pantry_categories").getD emptyCollection).docs.countP isPredefined := rfl

theorem countPredefined_createIndexes (n : String) (I : List IndexModel) (st : DBState) :
    countPredefined (createIndexes n I st) = countPredefined st := by
  rw [countPredefined_eq, countPredefined_eq]
  by_cases h : n = "pantry_categories"
  · subst h
    rw [getColl_createIndexes_same]
    rfl
  · rw [getColl_createIndexes_ne _ _ _ _ (Ne.symm h)]

theorem countPredefined_setMissingField (k v : String) (st : DBState) :
    countPredefined (setMissingField "groups" k v st) = countPredefined st := by
  rw [countPredefined_eq, countPredefined_eq,
    getColl_setMissingField_ne _ _ _ _ _ (by decide)]

theorem countPredefined_migrate (st : DBState) :
    countPredefined (MigrateExistingGroups st) = countPredefined st :=
  countPredefined_setMissingField _ _ st

theorem countPredefined_groupsStage (st : DBState) :
    countPredefined (groupsStage st) = countPredefined st := by
  rw [countPredefined_eq, countPredefined_eq, getColl_groupsStage_ne _ _ (by decide)]

theorem countPredefined_insertCatalog (st : DBState) :
    countPredefined
        (insertMany "pantry_categories" (predefinedCategories.map CreatePredefinedCategory) st) =
      countPredefined st + 20 := by
  rw [countPredefined_eq, countPredefined_eq, getColl_insertMany_same]
  show ((st.getCollD "pantry_categories").docs ++
      predefinedCategories.map CreatePredefinedCategory).countP isPredefined = _
  rw [List.countP_append]
  have h20 : (predefinedCategories.map CreatePredefinedCategory).countP isPredefined = 20 := by
    decide
  rw [h20]
  rfl

theorem countPredefined_seedStage_pos (st : DBState) : 0 < countPredefined (seedStage st) := by
  unfold seedStage
  split_ifs with h
  · exact h
  · rw [countPredefined_insertCatalog]
    omega

theorem countPredefined_bootState_pos (st : DBState) : 0 < countPredefined (bootState st) :=
  countPredefined_seedStage_pos _

/-! ## The fault-free run computes `bootState` -/

theorem seedPredefinedCategories_ok (f : Faults) (s : DBState)
    (hc : f.countPredefFails = false) (hi : f.insertPredefFails = false) :
    seedPredefinedCategories f s =
      (Except.ok (), seedStage s,
        if countPredefined s > 0 then ["Predefined categories already exist, skipping seeding"]
        else ["Successfully seeded predefined categories"]) := by
  simp only [seedPredefinedCategories, seedStage, hc, hi, Bool.false_eq_true, if_false]
  split_ifs <;> rfl

theorem seedPredefinedCategories_noFaults_fst (s : DBState) :
    (seedPredefinedCategories noFaults s).1 = Except.ok () := by
  rw [seedPredefinedCategories_ok noFaults s rfl rfl]

theorem seedPredefinedCategories_noFaults_state (s : DBState) :
    (seedPredefinedCategories noFaults s).2.1 = seedStage s := by
  rw [seedPredefinedCategories_ok noFaults s rfl rfl]

theorem initializeDatabase_noFaults (st : DBState) :
    (initializeDatabase noFaults st).1 = Except.ok () ∧
    (initializeDatabase noFaults st).2.1 = bootState st := by
  constructor
  · simp [initializeDatabase, noFaults, collectionExists]
  · by_cases hex :
        ((createIndexes "users" usersIndexes (MigrateExistingGroups st)).getColl "groups").isSome = true
    · have hst :
          (initializeDatabase noFaults st).2.1 =
            (seedPredefinedCategories noFaults
              (createIndexes "pantry_categories" categoriesIndexes
                (createIndexes "shopping_cart" shoppingCartIndexes
                  (createIndexes "chore_completions" completionsIndexes
                    (createIndexes "recurring_chores" recurringChoresIndexes
                      (createIndexes "chores" choresIndexes
                        (createIndexes "groups" groupsIndexes
                          (setMissingField "groups" "group_code" "LEGACY"
                            (dropAllIndexes "groups"
                              (createIndexes "users" usersIndexes
                                (MigrateExistingGroups st))))))))))).2.1 := by
        simp [initializeDatabase, noFaults, collectionExists, hex]
      rw [hst, seedPredefinedCategories_noFaults_state]
      unfold bootState stagePantry stageShopping stageCompletions stageRecurring stageChores
        stageGroups stageUsers groupsStage
      rw [if_pos hex]
    · have hst :
          (initializeDatabase noFaults st).2.1 =
            (seedPredefinedCategories noFaults
              (createIndexes "pantry_categories" categoriesIndexes
                (createIndexes "shopping_cart" shoppingCartIndexes
                  (createIndexes "chore_completions" completionsIndexes
                    (createIndexes "recurring_chores" recurringChoresIndexes
                      (createIndexes "chores" choresIndexes
                        (createIndexes "groups" groupsIndexes
                          (createIndexes "users" usersIndexes
                            (MigrateExistingGroups st))))))))).2.1 := by
        simp [initializeDatabase, noFaults, collectionExists, hex]
      rw [hst, seedPredefinedCategories_noFaults_state]
      unfold bootState stagePantry stageShopping stageCompletions stageRecurring stageChores
        stageGroups stageUsers groupsStage
      rw [if_neg hex]

/-! ## Rewriting the operations on a known collection -/

theorem createIndexes_eq (n : String) (I : List IndexModel) (st : DBState)
    (D : List Doc) (X : List IndexModel) (h : st.getColl n = some ⟨D, X⟩) :
    createIndexes n I st = st.setColl n ⟨D, addIdx X I⟩ := by
  unfold createIndexes
  have hD : st.getCollD n = ⟨D, X⟩ := by rw [getCollD_eq, h]; rfl
  rw [hD]

theorem createIndexes_eq_none (n : String) (I : List IndexModel) (st : DBState)
    (h : st.getColl n = none) :
    createIndexes n I st = st.setColl n ⟨[], addIdx [] I⟩ := by
  unfold createIndexes
  have hD : st.getCollD n = emptyCollection := by rw [getCollD_eq, h]; rfl
  rw [hD]
  rfl

theorem createIndexes_fix (n : String) (I : List IndexModel) (st : DBState)
    (c : Collection) (h : st.getColl n = some c) (hi : addIdx c.indexes I = c.indexes) :
    createIndexes n I st = st := by
  rw [createIndexes_eq n I st c.docs c.indexes h, hi]
  exact setColl_getColl_self st n c h

theorem dropAllIndexes_eq (n : String) (st : DBState)
    (D : List Doc) (X : List IndexModel) (h : st.getColl n = some ⟨D, X⟩) :
    dropAllIndexes n st = st.setColl n ⟨D, []⟩ := by
  unfold dropAllIndexes
  rw [h]

theorem setMissingField_eq (n k v : String) (st : DBState)
    (D : List Doc) (X : List IndexModel) (h : st.getColl n = some ⟨D, X⟩) :
    setMissingField n k v st = st.setColl n ⟨D.map (fun d => d.setMissing k v), X⟩ := by
  unfold setMissingField
  rw [h]

theorem setMissingField_fix (n k v : String) (st : DBState)
    (D : List Doc) (X : List IndexModel) (h : st.getColl n = some ⟨D, X⟩)
    (hmap : D.map (fun d => d.setMissing k v) = D) : setMissingField n k v st = st := by
  rw [setMissingField_eq n k v st D X h, hmap]
  exact setColl_getColl_self st n ⟨D, X⟩ h

/-! ## The shape of each collection after a fault-free run -/

theorem bootState_groups (st : DBState) :
    ∃ D, (bootState st).getColl "groups" = some ⟨D, addIdx [] groupsIndexes⟩ ∧
      D.map (fun d => d.setMissing "group_code" "LEGACY") = D := by
  have h1 : (bootState st).getColl "groups" = (stageGroups st).getColl "groups" := by
    unfold bootState stagePantry stageShopping stageCompletions stageRecurring stageChores
    rw [getColl_seedStage_ne _ _ (by decide),
      getColl_createIndexes_ne _ _ _ _ (by decide),
      getColl_createIndexes_ne _ _ _ _ (by decide),
      getColl_createIndexes_ne _ _ _ _ (by decide),
      getColl_createIndexes_ne _ _ _ _ (by decide),
      getColl_createIndexes_ne _ _ _ _ (by decide)]
  by_cases hex : ((stageUsers st).getColl "groups").isSome = true
  · obtain ⟨c, hc⟩ := Option.isSome_iff_exists.mp hex
    refine ⟨c.docs.map (fun d => d.setMissing "group_code" "LEGACY"), ?_, ?_⟩
    · rw [h1]
      unfold stageGroups groupsStage
      rw [if_pos hex]
      have h2 : (setMissingField "groups" "group_code" "LEGACY"
            (dropAllIndexes "groups" (stageUsers st))).getColl "groups" =
          some ⟨c.docs.map (fun d => d.setMissing "group_code" "LEGACY"), []⟩ := by
        rw [getColl_setMissingField_same, getColl_dropAllIndexes_same, hc]
        rfl
      rw [createIndexes_eq _ _ _ _ _ h2, getColl_setColl_same]
    · exact map_setMissing_idem c.docs _ _
  · refine ⟨[], ?_, rfl⟩
    rw [h1]
    unfold stageGroups groupsStage
    rw [if_neg hex]
    have h2 : (stageUsers st).getColl "groups" = none := by
      cases ho : (stageUsers st).getColl "groups" with
      | none => rfl
      | some c => rw [ho] at hex; simp at hex
    rw [createIndexes_eq_none _ _ _ h2, getColl_setColl_same]

theorem bootState_users (st : DBState) :
    ∃ c, (bootState st).getColl "users" = some c ∧
      addIdx c.indexes usersIndexes = c.indexes := by
  have h1 : (bootState st).getColl "users" = (stageUsers st).getColl "users" := by
    unfold bootState stagePantry stageShopping stageCompletions stageRecurring stageChores
      stageGroups
    rw [getColl_seedStage_ne _ _ (by decide),
      getColl_createIndexes_ne _ _ _ _ (by decide),
      getColl_createIndexes_ne _ _ _ _ (by decide),
      getColl_createIndexes_ne _ _ _ _ (by decide),
      getColl_createIndexes_ne _ _ _ _ (by decide),
      getColl_createIndexes_ne _ _ _ _ (by decide),
      getColl_createIndexes_ne _ _ _ _ (by decide),
      getColl_groupsStage_ne _ _ (by decide)]
  rw [h1]
  unfold stageUsers
  rw [getColl_createIndexes_same]
  exact ⟨_, rfl, addIdx_idem _ _⟩

theorem bootState_chores (st : DBState) :
    ∃ c, (bootState st).getColl "chores" = some c ∧
      addIdx c.indexes choresIndexes = c.indexes := by
  have h1 : (bootState st).getColl "chores" = (stageChores st).getColl "chores" := by
    unfold bootState stagePantry stageShopping stageCompletions stageRecurring
    rw [getColl_seedStage_ne _ _ (by decide),
      getColl_createIndexes_ne _ _ _ _ (by decide),
      getColl_createIndexes_ne _ _ _ _ (by decide),
      getColl_createIndexes_ne _ _ _ _ (by decide),
      getColl_createIndexes_ne _ _ _ _ (by decide)]
  rw [h1]
  unfold stageChores
  rw [getColl_createIndexes_same]
  exact ⟨_, rfl, addIdx_idem _ _⟩

theorem bootState_recurring (st : DBState) :
    ∃ c, (bootState st).getColl "recurring_chores" = some c ∧
      addIdx c.indexes recurringChoresIndexes = c.indexes := by
  have h1 : (bootState st).getColl "recurring_chores" =
      (stageRecurring st).getColl "recurring_chores" := by
    unfold bootState stagePantry stageShopping stageCompletions
    rw [getColl_seedStage_ne _ _ (by decide),
      getColl_createIndexes_ne _ _ _ _ (by decide),
      getColl_createIndexes_ne _ _ _ _ (by decide),
      getColl_createIndexes_ne _ _ _ _ (by decide)]
  rw [h1]
  unfold stageRecurring
  rw [getColl_createIndexes_same]
  exact ⟨_, rfl, addIdx_idem _ _⟩

theorem bootState_completions (st : DBState) :
    ∃ c, (bootState st).getColl "chore_completions" = some c ∧
      addIdx c.indexes completionsIndexes = c.indexes := by
  have h1 : (bootState st).getColl "chore_completions" =
      (stageCompletions st).getColl "chore_completions" := by
    unfold bootState stagePantry stageShopping
    rw [getColl_seedStage_ne _ _ (by decide),
      getColl_createIndexes_ne _ _ _ _ (by decide),
      getColl_createIndexes_ne _ _ _ _ (by decide)]
  rw [h1]
  unfold stageCompletions
  rw [getColl_createIndexes_same]
  exact ⟨_, rfl, addIdx_idem _ _⟩

theorem bootState_shopping (st : DBState) :
    ∃ c, (bootState st).getColl "shopping_cart" = some c ∧
      addIdx c.indexes shoppingCartIndexes = c.indexes := by
  have h1 : (bootState st).getColl "shopping_cart" =
      (stageShopping st).getColl "shopping_cart" := by
    unfold bootState stagePantry
    rw [getColl_seedStage_ne _ _ (by decide),
      getColl_createIndexes_ne _ _ _ _ (by decide)]
  rw [h1]
  unfold stageShopping
  rw [getColl_createIndexes_same]
  exact ⟨_, rfl, addIdx_idem _ _⟩

theorem bootState_pantry (st : DBState) :
    ∃ c, (bootState st).getColl "pantry_categories" = some c ∧
      addIdx c.indexes categoriesIndexes = c.indexes := by
  unfold bootState seedStage
  split_ifs with hc
  · unfold stagePantry
    rw [getColl_createIndexes_same]
    exact ⟨_, rfl, addIdx_idem _ _⟩
  · have h2 : (stagePantry st).getColl "pantry_categories" =
        some ⟨((stageShopping st).getCollD "pantry_categories").docs,
          addIdx ((stageShopping st).getCollD "pantry_categories").indexes categoriesIndexes⟩ := by
      unfold stagePantry
      exact getColl_createIndexes_same _ _ _
    have h3 : (stagePantry st).getCollD "pantry_categories" =
        ⟨((stageShopping st).getCollD "pantry_categories").docs,
          addIdx ((stageShopping st).getCollD "pantry_categories").indexes categoriesIndexes⟩ := by
      rw [getCollD_eq, h2]
      rfl
    rw [getColl_insertMany_same, h3]
    exact ⟨_, rfl, addIdx_idem _ _⟩

/-! ## A second fault-free run leaves the store fixed -/

theorem migrate_bootState_fix (st : DBState) :
    MigrateExistingGroups (bootState st) = bootState st := by
  obtain ⟨D, hD, hmap⟩ := bootState_groups st
  exact setMissingField_fix _ _ _ _ _ _ hD hmap

theorem stageUsers_fix (st : DBState) : stageUsers (bootState st) = bootState st := by
  unfold stageUsers
  rw [migrate_bootState_fix]
  obtain ⟨c, hc, hi⟩ := bootState_users st
  exact createIndexes_fix _ _ _ _ hc hi

theorem stageGroups_fix (st : DBState) : stageGroups (bootState st) = bootState st := by
  obtain ⟨D, hD, hmap⟩ := bootState_groups st
  unfold stageGroups
  rw [stageUsers_fix]
  unfold groupsStage
  rw [if_pos (by rw [hD]; rfl)]
  rw [dropAllIndexes_eq _ _ D _ hD]
  rw [setMissingField_eq _ _ _ _ D [] (getColl_setColl_same _ _ _), setColl_setColl_same, hmap]
  rw [createIndexes_eq _ _ _ D [] (getColl_setColl_same _ _ _), setColl_setColl_same]
  exact setColl_getColl_self _ _ _ hD

theorem stageChores_fix (st : DBState) : stageChores (bootState st) = bootState st := by
  unfold stageChores
  rw [stageGroups_fix]
  obtain ⟨c, hc, hi⟩ := bootState_chores st
  exact createIndexes_fix _ _ _ _ hc hi

theorem stageRecurring_fix (st : DBState) : stageRecurring (bootState st) = bootState st := by
  unfold stageRecurring
  rw [stageChores_fix]
  obtain ⟨c, hc, hi⟩ := bootState_recurring st
  exact createIndexes_fix _ _ _ _ hc hi

theorem stageCompletions_fix (st : DBState) : stageCompletions (bootState st) = bootState st := by
  unfold stageCompletions
  rw [stageRecurring_fix]
  obtain ⟨c, hc, hi⟩ := bootState_completions st
  exact createIndexes_fix _ _ _ _ hc hi

theorem stageShopping_fix (st : DBState) : stageShopping (bootState st) = bootState st := by
  unfold stageShopping
  rw [stageCompletions_fix]
  obtain ⟨c, hc, hi⟩ := bootState_shopping st
  exact createIndexes_fix _ _ _ _ hc hi

theorem stagePantry_fix (st : DBState) : stagePantry (bootState st) = bootState st := by
  unfold stagePantry
  rw [stageShopping_fix]
  obtain ⟨c, hc, hi⟩ := bootState_pantry st
  exact createIndexes_fix _ _ _ _ hc hi

/-! ## Crossing stages at untouched collections -/

theorem getColl_stageUsers_other (st : DBState) (m : String)
    (hu : m ≠ "users") (hg : m ≠ "groups") :
    (stageUsers st).getColl m = st.getColl m := by
  unfold stageUsers
  rw [getColl_createIndexes_ne _ _ _ _ hu]
  unfold MigrateExistingGroups
  rw [getColl_setMissingField_ne _ _ _ _ _ hg]

theorem getColl_stageGroups_other (st : DBState) (m : String)
    (hg : m ≠ "groups") (hu : m ≠ "users") :
    (stageGroups st).getColl m = st.getColl m := by
  unfold stageGroups
  rw [getColl_createIndexes_ne _ _ _ _ hg, getColl_groupsStage_ne _ _ hg,
    getColl_stageUsers_other st m hu hg]

theorem getColl_stageChores_other (st : DBState) (m : String)
    (hc : m ≠ "chores") (hg : m ≠ "groups") (hu : m ≠ "users") :
    (stageChores st).getColl m = st.getColl m := by
  unfold stageChores
  rw [getColl_createIndexes_ne _ _ _ _ hc, getColl_stageGroups_other st m hg hu]

theorem getColl_stageRecurring_other (st : DBState) (m : String)
    (hr : m ≠ "recurring_chores") (hc : m ≠ "chores") (hg : m ≠ "groups") (hu : m ≠ "users") :
    (stageRecurring st).getColl m = st.getColl m := by
  unfold stageRecurring
  rw [getColl_createIndexes_ne _ _ _ _ hr, getColl_stageChores_other st m hc hg hu]

theorem getColl_stageCompletions_other (st : DBState) (m : String)
    (hk : m ≠ "chore_completions") (hr : m ≠ "recurring_chores") (hc : m ≠ "chores")
    (hg : m ≠ "groups") (hu : m ≠ "users") :
    (stageCompletions st).getColl m = st.getColl m := by
  unfold stageCompletions
  rw [getColl_createIndexes_ne _ _ _ _ hk, getColl_stageRecurring_other st m hr hc hg hu]

theorem getColl_stageShopping_other (st : DBState) (m : String)
    (hs : m ≠ "shopping_cart") (hk : m ≠ "chore_completions") (hr : m ≠ "recurring_chores")
    (hc : m ≠ "chores") (hg : m ≠ "groups") (hu : m ≠ "users") :
    (stageShopping st).getColl m = st.getColl m := by
  unfold stageShopping
  rw [getColl_createIndexes_ne _ _ _ _ hs, getColl_stageCompletions_other st m hk hr hc hg hu]

theorem seedStage_pantry_indexes (s : DBState) :
    ((seedStage s).getCollD "pantry_categories").indexes =
      (s.getCollD "pantry_categories").indexes := by
  unfold seedStage
  split_ifs with h
  · rfl
  · rw [getCollD_eq, getColl_insertMany_same]
    rfl

/-! ## The final shape of each collection relative to the initial store -/

theorem bootState_users_eq (st : DBState) :
    (bootState st).getColl "users" =
      some ⟨(st.getCollD "users").docs, addIdx (st.getCollD "users").indexes usersIndexes⟩ := by
  unfold bootState
  rw [getColl_seedStage_ne _ _ (by decide)]
  unfold stagePantry stageShopping stageCompletions stageRecurring stageChores stageGroups
  rw [getColl_createIndexes_ne _ _ _ _ (by decide),
    getColl_createIndexes_ne _ _ _ _ (by decide),
    getColl_createIndexes_ne _ _ _ _ (by decide),
    getColl_createIndexes_ne _ _ _ _ (by decide),
    getColl_createIndexes_ne _ _ _ _ (by decide),
    getColl_createIndexes_ne _ _ _ _ (by decide),
    getColl_groupsStage_ne _ _ (by decide)]
  unfold stageUsers
  rw [getColl_createIndexes_same]
  have h2 : (MigrateExistingGroups st).getCollD "users" = st.getCollD "users" := by
    rw [getCollD_eq, getCollD_eq]
    unfold MigrateExistingGroups
    rw [getColl_setMissingField_ne _ _ _ _ _ (by decide)]
  rw [h2]

theorem bootState_chores_eq (st : DBState) :
    (bootState st).getColl "chores" =
      some ⟨(st.getCollD "chores").docs, addIdx (st.getCollD "chores").indexes choresIndexes⟩ := by
  unfold bootState
  rw [getColl_seedStage_ne _ _ (by decide)]
  unfold stagePantry stageShopping stageCompletions stageRecurring
  rw [getColl_createIndexes_ne _ _ _ _ (by decide),
    getColl_createIndexes_ne _ _ _ _ (by decide),
    getColl_createIndexes_ne _ _ _ _ (by decide),
    getColl_createIndexes_ne _ _ _ _ (by decide)]
  unfold stageChores
  rw [getColl_createIndexes_same]
  have h2 : (stageGroups st).getCollD "chores" = st.getCollD "chores" := by
    rw [getCollD_eq, getCollD_eq, getColl_stageGroups_other st _ (by decide) (by decide)]
  rw [h2]

theorem bootState_recurring_eq (st : DBState) :
    (bootState st).getColl "recurring_chores" =
      some ⟨(st.getCollD "recurring_chores").docs,
        addIdx (st.getCollD "recurring_chores").indexes recurringChoresIndexes⟩ := by
  unfold bootState
  rw [getColl_seedStage_ne _ _ (by decide)]
  unfold stagePantry stageShopping stageCompletions
  rw [getColl_createIndexes_ne _ _ _ _ (by decide),
    getColl_createIndexes_ne _ _ _ _ (by decide),
    getColl_createIndexes_ne _ _ _ _ (by decide)]
  unfold stageRecurring
  rw [getColl_createIndexes_same]
  have h2 : (stageChores st).getCollD "recurring_chores" = st.getCollD "recurring_chores" := by
    rw [getCollD_eq, getCollD_eq,
      getColl_stageChores_other st _ (by decide) (by decide) (by decide)]
  rw [h2]

theorem bootState_completions_eq (st : DBState) :
    (bootState st).getColl "chore_completions" =
      some ⟨(st.getCollD "chore_completions").docs,
        addIdx (st.getCollD "chore_completions").indexes completionsIndexes⟩ := by
  unfold bootState
  rw [getColl_seedStage_ne _ _ (by decide)]
  unfold stagePantry stageShopping
  rw [getColl_createIndexes_ne _ _ _ _ (by decide),
    getColl_createIndexes_ne _ _ _ _ (by decide)]
  unfold stageCompletions
  rw [getColl_createIndexes_same]
  have h2 : (stageRecurring st).getCollD "chore_completions" =
      st.getCollD "chore_completions" := by
    rw [getCollD_eq, getCollD_eq,
      getColl_stageRecurring_other st _ (by decide) (by decide) (by decide) (by decide)]
  rw [h2]

theorem bootState_shopping_eq (st : DBState) :
    (bootState st).getColl "shopping_cart" =
      some ⟨(st.getCollD "shopping_cart").docs,
        addIdx (st.getCollD "shopping_cart").indexes shoppingCartIndexes⟩ := by
  unfold bootState
  rw [getColl_seedStage_ne _ _ (by decide)]
  unfold stagePantry
  rw [getColl_createIndexes_ne _ _ _ _ (by decide)]
  unfold stageShopping
  rw [getColl_createIndexes_same]
  have h2 : (stageCompletions st).getCollD "shopping_cart" = st.getCollD "shopping_cart" := by
    rw [getCollD_eq, getCollD_eq,
      getColl_stageCompletions_other st _ (by decide) (by decide) (by decide) (by decide)
        (by decide)]
  rw [h2]

theorem bootState_pantry_indexes_eq (st : DBState) :
    ((bootState st).getCollD "pantry_categories").indexes =
      addIdx (st.getCollD "pantry_categories").indexes categoriesIndexes := by
  unfold bootState
  rw [seedStage_pantry_indexes]
  unfold stagePantry
  have h1 : (createIndexes "pantry_categories" categoriesIndexes
        (stageShopping st)).getCollD "pantry_categories" =
      ⟨((stageShopping st).getCollD "pantry_categories").docs,
        addIdx ((stageShopping st).getCollD "pantry_categories").indexes categoriesIndexes⟩ := by
    rw [getCollD_eq, getColl_createIndexes_same]
    rfl
  rw [h1]
  have h2 : (stageShopping st).getCollD "pantry_categories" =
      st.getCollD "pantry_categories" := by
    rw [getCollD_eq, getCollD_eq,
      getColl_stageShopping_other st _ (by decide) (by decide) (by decide) (by decide)
        (by decide) (by decide)]
  rw [h2]

theorem getField_setMissing_absent (d : Doc) (k v : String) (h : d.hasField k = false) :
    (d.setMissing k v).getField k = some v := by
  unfold Doc.setMissing
  rw [h]
  simp only [Bool.false_eq_true, if_false]
  unfold Doc.getField
  rw [List.find?_append]
  have hnone : d.find? (fun p => p.1 == k) = none := by
    rw [List.find?_eq_none]
    intro x hx
    have := (List.any_eq_false.mp h) x hx
    simpa using this
  rw [hnone]
  simp

theorem bootState_groups_of_exists (st : DBState) (c : Collection)
    (h : st.getColl "groups" = some c) :
    (bootState st).getColl "groups" =
      some ⟨c.docs.map (fun d => d.setMissing "group_code" "LEGACY"),
        addIdx [] groupsIndexes⟩ := by
  have h1 : (bootState st).getColl "groups" = (stageGroups st).getColl "groups" := by
    unfold bootState stagePantry stageShopping stageCompletions stageRecurring stageChores
    rw [getColl_seedStage_ne _ _ (by decide),
      getColl_createIndexes_ne _ _ _ _ (by decide),
      getColl_createIndexes_ne _ _ _ _ (by decide),
      getColl_createIndexes_ne _ _ _ _ (by decide),
      getColl_createIndexes_ne _ _ _ _ (by decide),
      getColl_createIndexes_ne _ _ _ _ (by decide)]
  have h2 : (stageUsers st).getColl "groups" =
      some ⟨c.docs.map (fun d => d.setMissing "group_code" "LEGACY"), c.indexes⟩ := by
    unfold stageUsers
    rw [getColl_createIndexes_ne _ _ _ _ (by decide)]
    unfold MigrateExistingGroups
    rw [getColl_setMissingField_same, h]
    rfl
  rw [h1]
  unfold stageGroups groupsStage
  rw [if_pos (by rw [h2]; rfl)]
  rw [dropAllIndexes_eq _ _ _ _ h2,
    setMissingField_eq _ _ _ _ _ _ (getColl_setColl_same _ _ _), setColl_setColl_same,
    map_setMissing_idem,
    createIndexes_eq _ _ _ _ _ (getColl_setColl_same _ _ _), setColl_setColl_same,
    getColl_setColl_same]

theorem bootState_groups_of_absent (st : DBState) (h : st.getColl "groups" = none) :
    (bootState st).getColl "groups" = some ⟨[], addIdx [] groupsIndexes⟩ := by
  have h1 : (bootState st).getColl "groups" = (stageGroups st).getColl "groups" := by
    unfold bootState stagePantry stageShopping stageCompletions stageRecurring stageChores
    rw [getColl_seedStage_ne _ _ (by decide),
      getColl_createIndexes_ne _ _ _ _ (by decide),
      getColl_createIndexes_ne _ _ _ _ (by decide),
      getColl_createIndexes_ne _ _ _ _ (by decide),
      getColl_createIndexes_ne _ _ _ _ (by decide),
      getColl_createIndexes_ne _ _ _ _ (by decide)]
  have h2 : (stageUsers st).getColl "groups" = none := by
    unfold stageUsers
    rw [getColl_createIndexes_ne _ _ _ _ (by decide)]
    unfold MigrateExistingGroups
    rw [getColl_setMissingField_same, h]
    rfl
  rw [h1]
  unfold stageGroups groupsStage
  rw [if_neg (by rw [h2]; simp)]
  rw [createIndexes_eq_none _ _ _ h2, getColl_setColl_same]

theorem seedStage_fix (st : DBState) : seedStage (bootState st) = bootState st := by
  unfold seedStage
  rw [if_pos (countPredefined_bootState_pos st)]

theorem bootState_idem (st : DBState) : bootState (bootState st) = bootState st := by
  show seedStage (stagePantry (bootState st)) = bootState st
  rw [stagePantry_fix, seedStage_fix]

/-! ## Claim theorems -/

theorem countPredefined_stagePantry (st : DBState) :
    countPredefined (stagePantry st) = countPredefined st := by
  unfold stagePantry stageShopping stageCompletions stageRecurring stageChores stageGroups
    stageUsers
  rw [countPredefined_createIndexes, countPredefined_createIndexes,
    countPredefined_createIndexes, countPredefined_createIndexes,
    countPredefined_createIndexes, countPredefined_createIndexes,
    countPredefined_groupsStage, countPredefined_createIndexes, countPredefined_migrate]

theorem ConnectDB_fatal_of_error (env : Env) (cf : ConnFaults) (f : Faults) (st : DBState)
    (e : String) (hck : connectorCheck env cf = none)
    (h : (initializeDatabase f st).1 = Except.error e) :
    (ConnectDB env cf f st).1 = Outcome.fatal ("Failed to initialize database: " ++ e) := by
  unfold ConnectDB
  rw [hck]
  rcases hI : initializeDatabase f st with ⟨r, s', lg⟩
  rw [hI] at h
  have hr : r = Except.error e := h
  subst hr
  rfl

/-- C2: whenever at least one document tagged `type = "predefined"` exists in
`pantry_categories` (count > 0) and the guard count itself does not fail, the
seeder inserts nothing and returns success, leaving the store unchanged —
even when fewer than 20 predefined categories exist. -/
theorem seeding_skipped_when_any_predefined (f : Faults) (st : DBState)
    (hc : f.countPredefFails = false) (h : countPredefined st > 0) :
    seedPredefinedCategories f st =
      (Except.ok (), st, ["Predefined categories already exist, skipping seeding"]) := by
  simp [seedPredefinedCategories, hc, h]

/-- Witness for C2: a store holding a single predefined category (fewer than
20) makes the seeder a successful no-op. -/
theorem seeding_skipped_when_any_predefined_witness :
    countPredefined (insertMany "pantry_categories" [CreatePredefinedCategory "Dairy"] emptyDB) > 0 ∧
    seedPredefinedCategories noFaults
        (insertMany "pantry_categories" [CreatePredefinedCategory "Dairy"] emptyDB) =
      (Except.ok (), insertMany "pantry_categories" [CreatePredefinedCategory "Dairy"] emptyDB,
        ["Predefined categories already exist, skipping seeding"]) :=
  ⟨by decide,
   seeding_skipped_when_any_predefined noFaults _ (by decide) (by decide)⟩

/-- C3: whenever the count of `type = "predefined"` documents is zero (and
neither the count nor the insert call fails), the seeder builds the fixed
20-item catalog and inserts all 20 records in a single batch insert. -/
theorem seeding_inserts_twenty_when_none (f : Faults) (st : DBState)
    (hc : f.countPredefFails = false) (hi : f.insertPredefFails = false)
    (h : countPredefined st = 0) :
    seedPredefinedCategories f st =
      (Except.ok (),
        insertMany "pantry_categories" (predefinedCategories.map CreatePredefinedCategory) st,
        ["Successfully seeded predefined categories"]) ∧
    (predefinedCategories.map CreatePredefinedCategory).length = 20 := by
  refine ⟨?_, by decide⟩
  simp [seedPredefinedCategories, hc, hi, h]

/-- Witness for C3: on the empty store the seeder performs the single
20-record batch insert. -/
theorem seeding_inserts_twenty_when_none_witness :
    seedPredefinedCategories noFaults emptyDB =
      (Except.ok (),
        insertMany "pantry_categories" (predefinedCategories.map CreatePredefinedCategory) emptyDB,
        ["Successfully seeded predefined categories"]) ∧
    (predefinedCategories.map CreatePredefinedCategory).length = 20 :=
  seeding_inserts_twenty_when_none noFaults emptyDB rfl rfl (by decide)

/-- C6: the Connector aborts fatally exactly when the URI, database name or
secret is empty after trimming, the connection attempt errors, or the ping
fails; each missing variable yields the message naming it, and a fatal
connector check stops `ConnectDB` before any database work. -/
theorem connector_fatal_iff (env : Env) (cf : ConnFaults) :
    ((connectorCheck env cf).isSome ↔
      (trimSpace env.mongoURI = "" ∨ trimSpace env.dbName = "" ∨
        trimSpace env.jwtSecret = "" ∨ cf.connectFails = true ∨ cf.pingFails = true)) ∧
    (trimSpace env.mongoURI = "" →
      connectorCheck env cf = some "MONGODB_URI is required in .env file") ∧
    (trimSpace env.mongoURI ≠ "" → trimSpace env.dbName = "" →
      connectorCheck env cf = some "DB_NAME is required in .env file") ∧
    (trimSpace env.mongoURI ≠ "" → trimSpace env.dbName ≠ "" → trimSpace env.jwtSecret = "" →
      connectorCheck env cf = some "JWT_SECRET is required in .env file") ∧
    (∀ (m : String) (f : Faults) (st : DBState), connectorCheck env cf = some m →
      ConnectDB env cf f st = (Outcome.fatal m, st)) := by
  refine ⟨?_, ?_, ?_, ?_, ?_⟩
  · unfold connectorCheck
    split_ifs <;> simp_all
  · intro h; simp [connectorCheck, h]
  · intro h1 h2; simp [connectorCheck, h1, h2]
  · intro h1 h2 h3; simp [connectorCheck, h1, h2, h3]
  · intro m f st h
    simp [ConnectDB, h]

/-- Witness for C6: an environment with an empty database name is rejected
with the message naming `DB_NAME`, and the process does not continue. -/
theorem connector_fatal_iff_witness :
    ((connectorCheck ⟨"mongodb://h", "  ", "s"⟩ noConnFaults).isSome ↔
      (trimSpace "mongodb://h" = "" ∨ trimSpace "  " = "" ∨
        trimSpace "s" = "" ∨ noConnFaults.connectFails = true ∨
        noConnFaults.pingFails = true)) ∧
    ConnectDB ⟨"mongodb://h", "  ", "s"⟩ noConnFaults noFaults emptyDB =
      (Outcome.fatal "DB_NAME is required in .env file", emptyDB) := by
  have h := connector_fatal_iff ⟨"mongodb://h", "  ", "s"⟩ noConnFaults
  exact ⟨h.1, h.2.2.2.2 _ noFaults emptyDB (h.2.2.1 (by decide) (by decide))⟩

/-- C9: the uniqueness constraint declared on `pantry_categories`
(`name`,`group_id`) carries the partial filter `group_id $exists`, and two
documents sharing a name but both lacking `group_id` can coexist without
violating it. -/
theorem pantry_uniqueness_partial (nm : String) (d1 d2 : Doc)
    (h1n : d1.getField "name" = some nm) (h2n : d2.getField "name" = some nm)
    (h1 : d1.hasField "group_id" = false) (h2 : d2.hasField "group_id" = false) :
    categoriesIndexes.head? =
      some ⟨[("name", 1), ("group_id", 1)], true, some "group_id"⟩ ∧
    ¬ violatesUnique ⟨[("name", 1), ("group_id", 1)], true, some "group_id"⟩ [d1, d2] := by
  refine ⟨rfl, ?_⟩
  rintro ⟨-, a, b, hab, hma, hmb, hkeys⟩
  have : ∀ (x : Fin ([d1, d2].length)),
      matchesFilter ([d1, d2].get x) ⟨[("name", 1), ("group_id", 1)], true, some "group_id"⟩ = false := by
    intro x
    fin_cases x <;> simp [matchesFilter, h1, h2]
  have ha := this a
  rw [hma] at ha
  simp at ha

/-- C4: running the full bootstrap twice against the same store is idempotent:
both runs succeed, the second run reproduces the first run's store exactly
(hence the identical declared index set for every collection), the second run
inserts zero additional predefined documents, and on a store with no
predefined categories the runs leave exactly 20 of them. -/
theorem bootstrap_idempotent (st0 : DBState) :
    (initializeDatabase noFaults st0).1 = Except.ok () ∧
    (initializeDatabase noFaults ((initializeDatabase noFaults st0).2.1)).1 = Except.ok () ∧
    (initializeDatabase noFaults ((initializeDatabase noFaults st0).2.1)).2.1 =
      (initializeDatabase noFaults st0).2.1 ∧
    countPredefined
        ((initializeDatabase noFaults ((initializeDatabase noFaults st0).2.1)).2.1) =
      countPredefined ((initializeDatabase noFaults st0).2.1) ∧
    (countPredefined st0 = 0 →
      countPredefined ((initializeDatabase noFaults st0).2.1) = 20) := by
  obtain ⟨h1, h2⟩ := initializeDatabase_noFaults st0
  obtain ⟨h3, h4⟩ := initializeDatabase_noFaults ((initializeDatabase noFaults st0).2.1)
  have hfix : (initializeDatabase noFaults ((initializeDatabase noFaults st0).2.1)).2.1 =
      (initializeDatabase noFaults st0).2.1 := by
    rw [h4, h2, bootState_idem, ← h2]
  refine ⟨h1, h3, hfix, by rw [hfix], ?_⟩
  intro h0
  rw [h2]
  unfold bootState seedStage
  have hsp : countPredefined (stagePantry st0) = 0 := by
    rw [countPredefined_stagePantry]
    exact h0
  rw [if_neg (by rw [hsp]; exact Nat.lt_irrefl 0), countPredefined_insertCatalog, hsp]

/-- Witness for C4: on the empty store both runs succeed, the second changes
nothing, and exactly 20 predefined categories remain. -/
theorem bootstrap_idempotent_witness :
    (initializeDatabase noFaults emptyDB).1 = Except.ok () ∧
    (initializeDatabase noFaults ((initializeDatabase noFaults emptyDB).2.1)).1 = Except.ok () ∧
    (initializeDatabase noFaults ((initializeDatabase noFaults emptyDB).2.1)).2.1 =
      (initializeDatabase noFaults emptyDB).2.1 ∧
    countPredefined
        ((initializeDatabase noFaults ((initializeDatabase noFaults emptyDB).2.1)).2.1) =
      countPredefined ((initializeDatabase noFaults emptyDB).2.1) ∧
    countPredefined ((initializeDatabase noFaults emptyDB).2.1) = 20 := by
  obtain ⟨a, b, c, d, e⟩ := bootstrap_idempotent emptyDB
  exact ⟨a, b, c, d, e rfl⟩

/-- C8: the destructive rebuild applies to the Groups collection only, and
only when it exists: its indexes are dropped and recreated as exactly the two
declared unique indexes, its documents lacking `group_code` receive the
sentinel "LEGACY" while documents with a `group_code` are untouched; when the
collection does not exist the drop and in-place migration are skipped and the
indexes are simply created; every other collection keeps its prior indexes and
merely gains the declared ones. -/
theorem groups_destructive_rebuild (st : DBState) :
    ((st.getColl "groups").isSome = true →
      ∃ c, st.getColl "groups" = some c ∧
        (initializeDatabase noFaults st).2.1.getColl "groups" =
          some ⟨c.docs.map (fun d => d.setMissing "group_code" "LEGACY"), groupsIndexes⟩) ∧
    (st.getColl "groups" = none →
      (initializeDatabase noFaults st).2.1.getColl "groups" = some ⟨[], groupsIndexes⟩) ∧
    (∀ d : Doc, d.hasField "group_code" = true →
      d.setMissing "group_code" "LEGACY" = d) ∧
    (∀ d : Doc, d.hasField "group_code" = false →
      (d.setMissing "group_code" "LEGACY").getField "group_code" = some "LEGACY") ∧
    ((initializeDatabase noFaults st).2.1.getCollD "users").indexes =
      addIdx (st.getCollD "users").indexes usersIndexes ∧
    ((initializeDatabase noFaults st).2.1.getCollD "chores").indexes =
      addIdx (st.getCollD "chores").indexes choresIndexes ∧
    ((initializeDatabase noFaults st).2.1.getCollD "recurring_chores").indexes =
      addIdx (st.getCollD "recurring_chores").indexes recurringChoresIndexes ∧
    ((initializeDatabase noFaults st).2.1.getCollD "chore_completions").indexes =
      addIdx (st.getCollD "chore_completions").indexes completionsIndexes ∧
    ((initializeDatabase noFaults st).2.1.getCollD "shopping_cart").indexes =
      addIdx (st.getCollD "shopping_cart").indexes shoppingCartIndexes ∧
    ((initializeDatabase noFaults st).2.1.getCollD "pantry_categories").indexes =
      addIdx (st.getCollD "pantry_categories").indexes categoriesIndexes := by
  obtain ⟨-, h2⟩ := initializeDatabase_noFaults st
  rw [h2]
  have hG : addIdx [] groupsIndexes = groupsIndexes := by decide
  refine ⟨?_, ?_, ?_, ?_, ?_, ?_, ?_, ?_, ?_, ?_⟩
  · intro hex
    obtain ⟨c, hc⟩ := Option.isSome_iff_exists.mp hex
    refine ⟨c, hc, ?_⟩
    rw [bootState_groups_of_exists st c hc, hG]
  · intro h
    rw [bootState_groups_of_absent st h, hG]
  · intro d h
    exact setMissing_of_hasField d _ _ h
  · intro d h
    exact getField_setMissing_absent d _ _ h
  · rw [getCollD_eq, bootState_users_eq]; rfl
  · rw [getCollD_eq, bootState_chores_eq]; rfl
  · rw [getCollD_eq, bootState_recurring_eq]; rfl
  · rw [getCollD_eq, bootState_completions_eq]; rfl
  · rw [getCollD_eq, bootState_shopping_eq]; rfl
  · exact bootState_pantry_indexes_eq st

/-- Witness for C8: a store with one legacy group (no `group_code`), one coded
group, and a stale index is rebuilt as specified. -/
theorem groups_destructive_rebuild_witness :
    (∃ c, (emptyDB.setColl "groups"
        ⟨[[("name", "A")], [("name", "B"), ("group_code", "X")]],
          [⟨[("old", 1)], false, none⟩]⟩).getColl "groups" = some c ∧
      (initializeDatabase noFaults (emptyDB.setColl "groups"
        ⟨[[("name", "A")], [("name", "B"), ("group_code", "X")]],
          [⟨[("old", 1)], false, none⟩]⟩)).2.1.getColl "groups" =
        some ⟨c.docs.map (fun d => d.setMissing "group_code" "LEGACY"), groupsIndexes⟩) ∧
    Doc.setMissing [("name", "B"), ("group_code", "X")] "group_code" "LEGACY" =
      [("name", "B"), ("group_code", "X")] ∧
    Doc.getField (Doc.setMissing [("name", "A")] "group_code" "LEGACY") "group_code" =
      some "LEGACY" := by
  have h := groups_destructive_rebuild (emptyDB.setColl "groups"
    ⟨[[("name", "A")], [("name", "B"), ("group_code", "X")]], [⟨[("old", 1)], false, none⟩]⟩)
  exact ⟨h.1 (by decide), h.2.2.1 [("name", "B"), ("group_code", "X")] (by decide),
    h.2.2.2.1 [("name", "A")] (by decide)⟩

/-- C10: an error from the catalog query makes `collectionExists` report
`false` (indistinguishable from non-existence), so under a failing probe the
bootstrap silently skips the Groups drop-and-migrate remediation — the prior
group indexes survive and are merely merged additively with the declared
ones — and no error is surfaced. -/
theorem probe_error_skips_rebuild :
    (∀ (f : Faults) (st : DBState) (n : String), f.listCollectionsFails = true →
      collectionExists f st n = false) ∧
    ∀ st : DBState,
      (initializeDatabase probeFaults st).1 = Except.ok () ∧
      ((initializeDatabase probeFaults st).2.1.getCollD "groups").indexes =
        addIdx (st.getCollD "groups").indexes groupsIndexes := by
  constructor
  · intro f st n h
    unfold collectionExists
    rw [h]
    rfl
  · intro st
    have hs : ∀ s, (seedPredefinedCategories probeFaults s).2.1 = seedStage s := fun s => by
      rw [seedPredefinedCategories_ok probeFaults s rfl rfl]
    have hst : (initializeDatabase probeFaults st).2.1 =
        seedStage
          (createIndexes "pantry_categories" categoriesIndexes
            (createIndexes "shopping_cart" shoppingCartIndexes
              (createIndexes "chore_completions" completionsIndexes
                (createIndexes "recurring_chores" recurringChoresIndexes
                  (createIndexes "chores" choresIndexes
                    (createIndexes "groups" groupsIndexes
                      (createIndexes "users" usersIndexes
                        (MigrateExistingGroups st)))))))) := by
      simp [initializeDatabase, probeFaults, collectionExists]
      exact hs _
    refine ⟨by simp [initializeDatabase, probeFaults, collectionExists], ?_⟩
    rw [getCollD_eq, hst, getColl_seedStage_ne _ _ (by decide),
      getColl_createIndexes_ne _ _ _ _ (by decide),
      getColl_createIndexes_ne _ _ _ _ (by decide),
      getColl_createIndexes_ne _ _ _ _ (by decide),
      getColl_createIndexes_ne _ _ _ _ (by decide),
      getColl_createIndexes_ne _ _ _ _ (by decide),
      getColl_createIndexes_same]
    have h2 : ((createIndexes "users" usersIndexes
          (MigrateExistingGroups st)).getCollD "groups").indexes =
        (st.getCollD "groups").indexes := by
      rw [getCollD_eq, getCollD_eq, getColl_createIndexes_ne _ _ _ _ (by decide)]
      unfold MigrateExistingGroups
      rw [getColl_setMissingField_same]
      cases st.getColl "groups" <;> rfl
    show addIdx ((createIndexes "users" usersIndexes
        (MigrateExistingGroups st)).getCollD "groups").indexes groupsIndexes = _
    rw [h2]

/-- Witness for C10: with the probe failing, a store whose groups collection
holds a stale index keeps it, and the run succeeds. -/
theorem probe_error_skips_rebuild_witness :
    collectionExists probeFaults
        (emptyDB.setColl "groups" ⟨[], [⟨[("old", 1)], false, none⟩]⟩) "groups" = false ∧
    (initializeDatabase probeFaults
        (emptyDB.setColl "groups" ⟨[], [⟨[("old", 1)], false, none⟩]⟩)).1 = Except.ok () ∧
    ((initializeDatabase probeFaults
        (emptyDB.setColl "groups" ⟨[], [⟨[("old", 1)], false, none⟩]⟩)).2.1.getCollD
          "groups").indexes =
      addIdx ((emptyDB.setColl "groups"
        ⟨[], [⟨[("old", 1)], false, none⟩]⟩).getCollD "groups").indexes groupsIndexes := by
  have h := probe_error_skips_rebuild
  exact ⟨h.1 probeFaults _ "groups" rfl, (h.2 _).1, (h.2 _).2⟩

/-- C1 as stated fails on the code: with the groups collection present and the
drop call failing, `initializeDatabase` returns the drop error and `ConnectDB`
terminates fatally — the bootstrap does not continue to the index-build
step. -/
theorem group_drop_failure_counterexample :
    (initializeDatabase dropFaults (emptyDB.setColl "groups" emptyCollection)).1 =
      Except.error "failed to drop group indexes" ∧
    (ConnectDB okEnv noConnFaults dropFaults (emptyDB.setColl "groups" emptyCollection)).1 =
      Outcome.fatal ("Failed to initialize database: " ++ "failed to drop group indexes") := by
  exact ⟨rfl, rfl⟩

/-- C1 amended: a failure while dropping the Groups indexes is fatal, not
advisory — whenever the groups collection exists, `initializeDatabase` aborts
with the drop error and the orchestrator terminates the process. -/
theorem group_drop_failure_fatal (st : DBState) (h : (st.getColl "groups").isSome = true) :
    (initializeDatabase dropFaults st).1 = Except.error "failed to drop group indexes" ∧
    (ConnectDB okEnv noConnFaults dropFaults st).1 =
      Outcome.fatal ("Failed to initialize database: " ++ "failed to drop group indexes") := by
  have hex : ((createIndexes "users" usersIndexes
      (MigrateExistingGroups st)).getColl "groups").isSome = true := by
    rw [getColl_createIndexes_ne _ _ _ _ (by decide)]
    unfold MigrateExistingGroups
    rw [getColl_setMissingField_same]
    obtain ⟨c, hc⟩ := Option.isSome_iff_exists.mp h
    rw [hc]
    rfl
  have h1 : (initializeDatabase dropFaults st).1 =
      Except.error "failed to drop group indexes" := by
    simp [initializeDatabase, dropFaults, collectionExists, hex]
  have hck : connectorCheck okEnv noConnFaults = none := by decide
  exact ⟨h1, ConnectDB_fatal_of_error okEnv noConnFaults dropFaults st _ hck h1⟩

/-- Witness for C1 amended: a store with a stale unique index on groups. -/
theorem group_drop_failure_fatal_witness :
    (initializeDatabase dropFaults
        (emptyDB.setColl "groups" ⟨[], [⟨[("name", 1)], true, none⟩]⟩)).1 =
      Except.error "failed to drop group indexes" ∧
    (ConnectDB okEnv noConnFaults dropFaults
        (emptyDB.setColl "groups" ⟨[], [⟨[("name", 1)], true, none⟩]⟩)).1 =
      Outcome.fatal ("Failed to initialize database: " ++ "failed to drop group indexes") :=
  group_drop_failure_fatal _ (by decide)

/-- C5: for each of the seven collections, a failing index creation makes
`initializeDatabase` return the error message naming that collection, and the
orchestrator then terminates the process fatally. -/
theorem index_creation_failure_fatal (c m : String) (st : DBState)
    (h : (c, m) ∈ indexErrorTable) :
    (initializeDatabase (onlyCreateFail c) st).1 = Except.error m ∧
    (ConnectDB okEnv noConnFaults (onlyCreateFail c) st).1 =
      Outcome.fatal ("Failed to initialize database: " ++ m) := by
  have hck : connectorCheck okEnv noConnFaults = none := by decide
  have h1 : (initializeDatabase (onlyCreateFail c) st).1 = Except.error m := by
    simp only [indexErrorTable, List.mem_cons, List.not_mem_nil, or_false] at h
    rcases h with h | h | h | h | h | h | h <;>
      (rw [Prod.mk.injEq] at h; obtain ⟨rfl, rfl⟩ := h;
        simp [initializeDatabase, onlyCreateFail, collectionExists])
  exact ⟨h1, ConnectDB_fatal_of_error okEnv noConnFaults (onlyCreateFail c) st m hck h1⟩

/-- Witness for C5: a failing users index creation aborts the bootstrap with
the users message. -/
theorem index_creation_failure_fatal_witness :
    (initializeDatabase (onlyCreateFail "users") emptyDB).1 =
      Except.error "failed to create user indexes" ∧
    (ConnectDB okEnv noConnFaults (onlyCreateFail "users") emptyDB).1 =
      Outcome.fatal ("Failed to initialize database: " ++ "failed to create user indexes") :=
  index_creation_failure_fatal "users" "failed to create user indexes" emptyDB (by decide)

/-- C7: failures of both group legacy-field migration calls (the up-front
migration and the in-place `group_code` backfill) are advisory: the run still
succeeds, the warnings are logged, and the bootstrap continues to the index
creation steps — the users indexes are built and the pantry collection is
reached. -/
theorem migration_failure_advisory (st : DBState) :
    (initializeDatabase migrationFaults st).1 = Except.ok () ∧
    "Warning: Could not migrate existing groups" ∈ (initializeDatabase migrationFaults st).2.2 ∧
    ((st.getColl "groups").isSome = true →
      "Warning: Unable to set default group_code on existing documents" ∈
        (initializeDatabase migrationFaults st).2.2) ∧
    ((initializeDatabase migrationFaults st).2.1.getCollD "users").indexes =
      addIdx (st.getCollD "users").indexes usersIndexes ∧
    ((initializeDatabase migrationFaults st).2.1.getColl "pantry_categories").isSome = true := by
  have hseed : ∀ s, (seedPredefinedCategories migrationFaults s).2.1 = seedStage s := fun s => by
    rw [seedPredefinedCategories_ok migrationFaults s rfl rfl]
  have hseed2 : ∀ s, (seedPredefinedCategories migrationFaults s).1 = Except.ok () := fun s => by
    rw [seedPredefinedCategories_ok migrationFaults s rfl rfl]
  have e1 : migrationFaults.migrateGroupsFails = true := rfl
  have e2 : migrationFaults.listCollectionsFails = false := rfl
  have e3 : migrationFaults.dropGroupIndexesFails = false := rfl
  have e4 : migrationFaults.updateGroupCodeFails = true := rfl
  have e5 : ∀ n, migrationFaults.createIndexFails n = false := fun _ => rfl
  have e6 : migrationFaults.countPredefFails = false := rfl
  have e7 : migrationFaults.insertPredefFails = false := rfl
  have husers : ∀ Z : DBState,
      (seedStage (createIndexes "pantry_categories" categoriesIndexes
        (createIndexes "shopping_cart" shoppingCartIndexes
          (createIndexes "chore_completions" completionsIndexes
            (createIndexes "recurring_chores" recurringChoresIndexes
              (createIndexes "chores" choresIndexes
                (createIndexes "groups" groupsIndexes Z))))))).getColl "users" =
        Z.getColl "users" := by
    intro Z
    rw [getColl_seedStage_ne _ _ (by decide),
      getColl_createIndexes_ne _ _ _ _ (by decide),
      getColl_createIndexes_ne _ _ _ _ (by decide),
      getColl_createIndexes_ne _ _ _ _ (by decide),
      getColl_createIndexes_ne _ _ _ _ (by decide),
      getColl_createIndexes_ne _ _ _ _ (by decide),
      getColl_createIndexes_ne _ _ _ _ (by decide)]
  have hpant : ∀ Z : DBState,
      ((seedStage (createIndexes "pantry_categories" categoriesIndexes Z)).getColl
        "pantry_categories").isSome = true := by
    intro Z
    unfold seedStage
    split_ifs
    · rw [getColl_createIndexes_same]
      rfl
    · rw [getColl_insertMany_same]
      rfl
  by_cases hex : (st.getColl "groups").isSome = true
  · have hgex : ((createIndexes "users" usersIndexes st).getColl "groups").isSome = true := by
      rw [getColl_createIndexes_ne _ _ _ _ (by decide)]
      exact hex
    have hstate : (initializeDatabase migrationFaults st).2.1 =
        seedStage (createIndexes "pantry_categories" categoriesIndexes
          (createIndexes "shopping_cart" shoppingCartIndexes
            (createIndexes "chore_completions" completionsIndexes
              (createIndexes "recurring_chores" recurringChoresIndexes
                (createIndexes "chores" choresIndexes
                  (createIndexes "groups" groupsIndexes
                    (dropAllIndexes "groups"
                      (createIndexes "users" usersIndexes st)))))))) := by
      simp [initializeDatabase, collectionExists, e1, e2, e3, e4, e5, hgex]
      exact hseed _
    have hlogs : (initializeDatabase migrationFaults st).2.2 =
        ["Warning: Could not migrate existing groups",
          "Warning: Unable to set default group_code on existing documents"] ++
          (seedPredefinedCategories migrationFaults
            (createIndexes "pantry_categories" categoriesIndexes
              (createIndexes "shopping_cart" shoppingCartIndexes
                (createIndexes "chore_completions" completionsIndexes
                  (createIndexes "recurring_chores" recurringChoresIndexes
                    (createIndexes "chores" choresIndexes
                      (createIndexes "groups" groupsIndexes
                        (dropAllIndexes "groups"
                          (createIndexes "users" usersIndexes st))))))))).2.2 := by
      simp [initializeDatabase, collectionExists, e1, e2, e3, e4, e5, hgex, hseed2]
    refine ⟨?_, ?_, fun _ => ?_, ?_, ?_⟩
    · simp [initializeDatabase, migrationFaults, collectionExists]
    · rw [hlogs]
      simp
    · rw [hlogs]
      simp
    · rw [getCollD_eq, hstate, husers, getColl_dropAllIndexes_ne _ _ _ (by decide),
        getColl_createIndexes_same]
      rfl
    · rw [hstate]
      exact hpant _
  · have hgex : ((createIndexes "users" usersIndexes st).getColl "groups").isSome = false := by
      rw [getColl_createIndexes_ne _ _ _ _ (by decide)]
      cases hb : (st.getColl "groups").isSome
      · rfl
      · exact absurd hb hex
    have hstate : (initializeDatabase migrationFaults st).2.1 =
        seedStage (createIndexes "pantry_categories" categoriesIndexes
          (createIndexes "shopping_cart" shoppingCartIndexes
            (createIndexes "chore_completions" completionsIndexes
              (createIndexes "recurring_chores" recurringChoresIndexes
                (createIndexes "chores" choresIndexes
                  (createIndexes "groups" groupsIndexes
                    (createIndexes "users" usersIndexes st))))))) := by
      simp [initializeDatabase, collectionExists, e1, e2, e3, e4, e5, hgex]
      exact hseed _
    have hlogs : (initializeDatabase migrationFaults st).2.2 =
        ["Warning: Could not migrate existing groups"] ++
          (seedPredefinedCategories migrationFaults
            (createIndexes "pantry_categories" categoriesIndexes
              (createIndexes "shopping_cart" shoppingCartIndexes
                (createIndexes "chore_completions" completionsIndexes
                  (createIndexes "recurring_chores" recurringChoresIndexes
                    (createIndexes "chores" choresIndexes
                      (createIndexes "groups" groupsIndexes
                        (createIndexes "users" usersIndexes st)))))))).2.2 := by
      simp [initializeDatabase, collectionExists, e1, e2, e3, e4, e5, hgex, hseed2]
    refine ⟨?_, ?_, fun hx => absurd hx hex, ?_, ?_⟩
    · simp [initializeDatabase, migrationFaults, collectionExists]
    · rw [hlogs]
      simp
    · rw [getCollD_eq, hstate, husers, getColl_createIndexes_same]
      rfl
    · rw [hstate]
      exact hpant _

/-- Witness for C7: on a store holding a groups collection, both migration
warnings are logged and the run still succeeds and builds the indexes. -/
theorem migration_failure_advisory_witness :
    (initializeDatabase migrationFaults (emptyDB.setColl "groups" emptyCollection)).1 =
      Except.ok () ∧
    "Warning: Could not migrate existing groups" ∈
      (initializeDatabase migrationFaults (emptyDB.setColl "groups" emptyCollection)).2.2 ∧
    "Warning: Unable to set default group_code on existing documents" ∈
      (initializeDatabase migrationFaults (emptyDB.setColl "groups" emptyCollection)).2.2 ∧
    ((initializeDatabase migrationFaults
        (emptyDB.setColl "groups" emptyCollection)).2.1.getCollD "users").indexes =
      addIdx ((emptyDB.setColl "groups" emptyCollection).getCollD "users").indexes
        usersIndexes ∧
    ((initializeDatabase migrationFaults
        (emptyDB.setColl "groups" emptyCollection)).2.1.getColl
          "pantry_categories").isSome = true := by
  have h := migration_failure_advisory (emptyDB.setColl "groups" emptyCollection)
  exact ⟨h.1, h.2.1, h.2.2.1 (by decide), h.2.2.2.1, h.2.2.2.2⟩

/-- Witness for C9: two concrete ungrouped documents named "Dairy" coexist
under the partial unique index. -/
theorem pantry_uniqueness_partial_witness :
    categoriesIndexes.head? =
      some ⟨[("name", 1), ("group_id", 1)], true, some "group_id"⟩ ∧
    ¬ violatesUnique ⟨[("name", 1), ("group_id", 1)], true, some "group_id"⟩
      [[("name", "Dairy"), ("type", "predefined")],
       [("name", "Dairy"), ("type", "user")]] :=
  pantry_uniqueness_partial "Dairy"
    [("name", "Dairy"), ("type", "predefined")]
    [("name", "Dairy"), ("type", "user")]
    (by decide) (by decide) (by decide) (by decide)

end Cribb
